import Mathlib

/-!
Shallow embedding of the AWS cost exporter (`aws-cost/main.py`) and proofs
about its collection pipeline.

Modelling conventions:
* Python decimal amount strings are parsed into exact rationals (`ℚ`);
  the amounts exchanged with the billing API are short decimal literals,
  which the model parses exactly.  `math.ceil` becomes `Int.ceil` on `ℚ`.
* Python dicts are insertion-ordered association lists; assignment to an
  existing key replaces the value in place, otherwise appends.
* Fallible operations (dict key lookup raising `KeyError`, `float()`
  raising `ValueError`, indexing an empty list) are modelled with
  `Option`; exceptions crossing a function boundary are modelled with
  `Except`.
* Instants (`datetime.utcnow()`) are seconds since the Unix epoch
  (`ℕ`); calendar dates are day numbers since 1970-01-01 (`ℤ`),
  converted to civil year/month/day by the standard proleptic-Gregorian
  algorithm when the code formats them with `strftime("%Y-%m-%d")`.
-/

/-- Python's whitespace test for `str.split()` (ASCII whitespace). -/
def isPySpace (c : Char) : Bool :=
  c = ' ' || c = '\t' || c = '\n' || c = '\r' || c = '\x0b' || c = '\x0c'

/-- Worker for `str.split()`: walks the characters keeping the current
field (reversed) in `acc`; whitespace closes the field, empty fields are
dropped. -/
def pySplitAux : List Char → List Char → List String
  | [], acc => if acc.isEmpty then [] else [String.mk acc.reverse]
  | c :: cs, acc =>
    if isPySpace c then
      if acc.isEmpty then pySplitAux cs []
      else String.mk acc.reverse :: pySplitAux cs []
    else pySplitAux cs (c :: acc)

/-- `str.split()` with no separator: splits on runs of whitespace and
drops empty fields.  Embeds the `r["Keys"][0].split()` call on line 124. -/
def pySplitChars (l : List Char) : List String :=
  pySplitAux l []

/-- `"_".join(parts)` from line 124. -/
def joinUnderscore : List String → String
  | [] => ""
  | [x] => x
  | x :: xs => x ++ "_" ++ joinUnderscore xs

/-- `"_".join(key.split())` — the service-name normalization on line 124. -/
def normalizeName (s : String) : String :=
  joinUnderscore (pySplitChars s.data)

/-- Value of a list of decimal digit characters; `none` on a non-digit. -/
def digitsVal? (cs : List Char) : Option ℕ :=
  cs.foldlM (fun a c => if c.isDigit then some (10 * a + (c.toNat - 48)) else none) 0

/-- Python `float()` restricted to the fixed-point decimal literals the
billing API returns for amounts (optional sign, digits, optional single
point).  The value is kept exact as a rational; a malformed string is
`none` (a raised `ValueError`). -/
def parseDecimal (s : String) : Option ℚ :=
  let go : List Char → Option ℚ := fun cs =>
    match cs.splitOn '.' with
    | [ip] => if ip.isEmpty then none else (digitsVal? ip).map (fun n => (n : ℚ))
    | [ip, fp] =>
      if ip.isEmpty && fp.isEmpty then none
      else do
        let i ← digitsVal? ip
        let f ← digitsVal? fp
        pure ((i : ℚ) + (f : ℚ) / ((10 : ℚ) ^ fp.length))
    | _ => none
  match s.data with
  | '-' :: rest => (go rest).map (fun q => -q)
  | '+' :: rest => go rest
  | cs => go cs

/-- Python dict assignment `m[k] = v` on an insertion-ordered dict:
replace in place when the key exists, else append. -/
def dictInsert (m : List (String × ℤ)) (k : String) (v : ℤ) : List (String × ℤ) :=
  match m with
  | [] => [(k, v)]
  | (k0, v0) :: rest => if k0 = k then (k0, v) :: rest else (k0, v0) :: dictInsert rest k v

/-- Python dict read `m[k]` (as `Option`). -/
def dictGet? (m : List (String × ℤ)) (k : String) : Option ℤ :=
  match m with
  | [] => none
  | (k0, v0) :: rest => if k0 = k then some v0 else dictGet? rest k

/-- One entry of `resp["ResultsByTime"][0]["Groups"]`: the group's `Keys`
list and its `Metrics` dict, flattened to metric-name → `Amount` string. -/
structure CostGroup where
  keys : List String
  metrics : List (String × String)
deriving DecidableEq, Repr

/-- `float(r["Metrics"]["AmortizedCost"]["Amount"])` for a group: the code
indexes the `Metrics` dict with the FIXED key `"AmortizedCost"` (lines 123
and 126-128), not with the configured cost type. -/
def groupAmount? (g : CostGroup) : Option ℚ :=
  (List.lookup "AmortizedCost" g.metrics).bind parseDecimal

/-- `"_".join(r["Keys"][0].split())` for a group (line 124); `none` models
the `IndexError` on an empty `Keys` list. -/
def serviceOf? (g : CostGroup) : Option String :=
  g.keys.head?.map normalizeName

/-- Result of `__get_aws_cost`: the `{"Cost": ..., "Total": ...}` dict. -/
structure CostResult where
  cost : List (String × ℤ)
  total : ℚ
deriving DecidableEq, Repr

/-- One iteration of the aggregation loop (lines 122-128):
`cost = ceil(float(amount)); service = normalize(keys[0]);
Cost[service] = cost; Total += float(amount)`. -/
def costStep (acc : CostResult) (g : CostGroup) : Option CostResult := do
  let amt ← groupAmount? g
  let service ← serviceOf? g
  pure ⟨dictInsert acc.cost service ⌈amt⌉, acc.total + amt⟩

/-- The aggregation part of `__get_aws_cost` (lines 120-132), as a function
of the group list of the first time-period result; a `none` is an uncaught
exception (`KeyError`/`ValueError`) escaping the loop. -/
def getAwsCost (groups : List CostGroup) : Option CostResult :=
  groups.foldlM costStep ⟨[], 0⟩

/-- Civil (proleptic Gregorian) date of a day number counted from
1970-01-01, the calendar `datetime` arithmetic works in; the standard
era-based conversion algorithm. -/
def civilFromDays (z0 : ℤ) : ℤ × ℤ × ℤ :=
  let z := z0 + 719468
  let era := Int.ediv z 146097
  let doe := z - era * 146097
  let yoe := Int.ediv (doe - Int.ediv doe 1460 + Int.ediv doe 36524 - Int.ediv doe 146096) 365
  let y := yoe + era * 400
  let doy := doe - (365 * yoe + Int.ediv yoe 4 - Int.ediv yoe 100)
  let mp := Int.ediv (5 * doy + 2) 153
  let d := doy - Int.ediv (153 * mp + 2) 5 + 1
  let m := mp + (if mp < 10 then 3 else -9)
  (y + (if m ≤ 2 then 1 else 0), m, d)

/-- Decimal digit character for `x mod 10`. -/
def digitCh (x : ℤ) : Char :=
  Char.ofNat (48 + (Int.emod x 10).toNat)

/-- `strftime("%Y-%m-%d")` of the midnight of a given day number (lines
106-107): zero-padded 4-digit year, 2-digit month and day.  Faithful for
years 0-9999, which covers every value `datetime.utcnow()` can take. -/
def formatDate (z : ℤ) : String :=
  let c := civilFromDays z
  let y := c.1
  let m := c.2.1
  let d := c.2.2
  String.mk [digitCh (Int.ediv y 1000), digitCh (Int.ediv y 100),
             digitCh (Int.ediv y 10), digitCh y, '-',
             digitCh (Int.ediv m 10), digitCh m, '-',
             digitCh (Int.ediv d 10), digitCh d]

/-- The `{Start, End}` day numbers of `__get_time_range` (lines 100-109):
`end = utcnow() truncated to midnight` and `start = end - 1 day`, for
`now` in seconds since the epoch. -/
def getTimeRangeDays (now : ℕ) : ℤ × ℤ :=
  ((now / 86400 : ℕ) - 1, (now / 86400 : ℕ))

/-- `__get_time_range` (lines 100-109): the two bounds rendered with
`strftime("%Y-%m-%d")`. -/
def getTimeRange (now : ℕ) : String × String :=
  (formatDate (getTimeRangeDays now).1, formatDate (getTimeRangeDays now).2)

/-- Recognizer for the `YYYY-MM-DD` rendering: ten characters, decimal
digits with dashes at positions 4 and 7. -/
def isYYYYMMDD (s : String) : Bool :=
  match s.data with
  | [y1, y2, y3, y4, h1, m1, m2, h2, d1, d2] =>
    y1.isDigit && y2.isDigit && y3.isDigit && y4.isDigit &&
    h1 == '-' && m1.isDigit && m2.isDigit && h2 == '-' &&
    d1.isDigit && d2.isDigit
  | _ => false

/-- The collector's per-instance state (`AWSCostMetricCollector.__init__`,
lines 70-81).  `time_range` is computed ONCE here, from the construction
instant `t0` (line 79), and stored on the instance. -/
structure Collector where
  project : String
  role_arn : String
  region : String
  time_range : String × String
  cost_type : String
  cost_filter : String
deriving DecidableEq, Repr

/-- `AWSCostMetricCollector(...)` constructed at instant `t0` (seconds
since epoch): stores the config fields and `self.__time_range =
self.__get_time_range()` evaluated at `t0`. -/
def initCollector (project role_arn region cost_type cost_filter : String)
    (t0 : ℕ) : Collector :=
  ⟨project, role_arn, region, getTimeRange t0, cost_type, cost_filter⟩

/-- The `get_cost_and_usage` request built on lines 112-118. -/
structure CERequest where
  timePeriod : String × String
  granularity : String
  metrics : List String
  filter : String
  groupBy : List (String × String)
deriving DecidableEq, Repr

/-- The request `__get_aws_cost` sends (lines 112-118): the stored
`self.__time_range`, daily granularity, `Metrics=[self.cost_type]`, the
configured filter, grouped by the service dimension. -/
def buildRequest (c : Collector) : CERequest :=
  ⟨c.time_range, "DAILY", [c.cost_type], c.cost_filter, [("DIMENSION", "SERVICE")]⟩

/-- A sample added by `Metric.add_sample` (lines 142-157). -/
structure Sample where
  name : String
  value : ℚ
  labels : List (String × String)
deriving DecidableEq, Repr

/-- The `Metric` object yielded by `collect` (lines 135-139). -/
structure PromMetric where
  name : String
  docline : String
  type : String
  samples : List Sample
deriving DecidableEq, Repr

/-- The metric `collect` builds from an aggregation result (lines
135-157): one `individual_service` sample per cost entry, in dict
insertion order, then the single `daily_total` sample. -/
def buildMetric (c : Collector) (res : CostResult) : PromMetric :=
  { name := "aws_project_cost_as_per_service"
    docline := "Service wise cost for an AWS account"
    type := "gauge"
    samples :=
      (res.cost.map fun p =>
        { name := "aws_cost", value := (p.2 : ℚ),
          labels := [("project", c.project), ("service", p.1),
                     ("type", "individual_service")] }) ++
      [{ name := "aws_cost", value := res.total,
         labels := [("project", c.project), ("type", "daily_total")] }] }

/-- `AWSCostMetricCollector.collect` (lines 134-159).  `resp` is the
outcome of the `get_cost_and_usage` call: `Except.error` when the billing
API raises.  `collect` contains no exception handler, so a failing call —
or a `KeyError`/`ValueError` inside the aggregation loop — propagates to
the caller (the metrics-server layer) unchanged. -/
def collect (c : Collector) (resp : Except String (List CostGroup)) :
    Except String PromMetric :=
  match resp with
  | .error e => .error e
  | .ok groups =>
    match getAwsCost groups with
    | none => .error "KeyError"
    | some res => .ok (buildMetric c res)

/-- Observable startup actions of `__main__` (lines 170-196). -/
inductive StartupStep
  | loadConfig
  | startServer
  | assumeRole
  | registerCollector
  | serveLoop
deriving DecidableEq, Repr

/-- The startup sequence of `__main__` (lines 170-196): parse/load config
(172-181), `start_http_server` (183), construct the collector — whose
`__init__` performs `sts.assume_role` (line 76) — then `REGISTRY.register`
(194) and the sleep loop (195-196).  When `assume_role` raises, the
exception is uncaught: startup stops there and the process exits
abnormally (second component `true` = fatal exit). -/
def startupTrace (assumeSucceeds : Bool) : List StartupStep × Bool :=
  if assumeSucceeds then
    ([.loadConfig, .startServer, .assumeRole, .registerCollector, .serveLoop], false)
  else
    ([.loadConfig, .startServer, .assumeRole], true)

/-- `a` is executed strictly before `b` in trace `l`. -/
def stepPrecedes (l : List StartupStep) (a b : StartupStep) : Prop :=
  l.indexOf a < l.indexOf b ∧ a ∈ l ∧ b ∈ l

/-- The parsed amounts of a list of groups, in order (`none` as soon as
one group's amount is missing or malformed). -/
def amountsOf : List CostGroup → Option (List ℚ)
  | [] => some []
  | g :: gs => do
    let a ← groupAmount? g
    let as ← amountsOf gs
    pure (a :: as)

/-- The `type` label of a sample. -/
def typeLabel (s : Sample) : Option String :=
  List.lookup "type" s.labels

/-- A concrete collector for the end-to-end scenario: project `acme`,
constructed at 2025-10-12 00:00:00 UTC. -/
def acmeCollector : Collector :=
  initCollector "acme" "arn:aws:iam::123:role/x" "eu-west-1" "AmortizedCost" "exclude-credits" 1760227200

/-- Two service groups as the mocked query service returns them. -/
def demoGroups : List CostGroup :=
  [⟨["EC2"], [("AmortizedCost", "12.40")]⟩, ⟨["S3"], [("AmortizedCost", "3.10")]⟩]

/-! ## Helper lemmas -/

theorem mem_dictInsert {m : List (String × ℤ)} {k : String} {v : ℤ} {p : String × ℤ}
    (hp : p ∈ dictInsert m k v) : p ∈ m ∨ p = (k, v) := by
  induction m with
  | nil => simpa [dictInsert] using hp
  | cons kv rest ih =>
    obtain ⟨k0, v0⟩ := kv
    by_cases hk : k0 = k
    · subst hk
      simp [dictInsert] at hp
      rcases hp with h | h
      · right; simp [h]
      · left; exact List.mem_cons_of_mem _ h
    · simp [dictInsert, hk] at hp
      rcases hp with h | h
      · left; simp [h]
      · rcases ih h with h' | h'
        · left; exact List.mem_cons_of_mem _ h'
        · right; exact h'

theorem getAwsCost_go (groups : List CostGroup) :
    ∀ acc res : CostResult, List.foldlM costStep acc groups = some res →
      (∃ as, amountsOf groups = some as ∧ res.total = acc.total + as.sum) ∧
      (∀ p ∈ res.cost, p ∈ acc.cost ∨
        ∃ g ∈ groups, ∃ a, groupAmount? g = some a ∧
          serviceOf? g = some p.1 ∧ p.2 = ⌈a⌉) := by
  induction groups with
  | nil =>
    intro acc res h
    simp [List.foldlM] at h
    subst h
    exact ⟨⟨[], rfl, by simp⟩, fun p hp => Or.inl hp⟩
  | cons g gs ih =>
    intro acc res h
    rw [List.foldlM_cons] at h
    rcases Option.bind_eq_some.mp h with ⟨acc', hstep, hrest⟩
    rcases Option.bind_eq_some.mp hstep with ⟨a, ha, hstep'⟩
    rcases Option.bind_eq_some.mp hstep' with ⟨sname, hs, hacc'⟩
    simp only [Option.pure_def, Option.some_inj] at hacc'
    obtain ⟨⟨as, has, htot⟩, hent⟩ := ih acc' res hrest
    constructor
    · refine ⟨a :: as, ?_, ?_⟩
      · simp [amountsOf, ha, has]
      · subst hacc'
        simp at htot
        simp [htot, List.sum_cons]
        ring
    · intro p hp
      rcases hent p hp with hin | ⟨g', hg', a', ha', hs', hc'⟩
      · subst hacc'
        simp at hin
        rcases mem_dictInsert hin with h' | h'
        · exact Or.inl h'
        · refine Or.inr ⟨g, List.mem_cons_self _ _, a, ha, ?_, ?_⟩
          · rw [hs]; rw [h']
          · rw [h']
      · exact Or.inr ⟨g', List.mem_cons_of_mem _ hg', a', ha', hs', hc'⟩

theorem countP_map_true {α β : Type} (f : α → β) (p : β → Bool) (l : List α)
    (h : ∀ x, p (f x) = true) : (l.map f).countP p = l.length := by
  induction l with
  | nil => rfl
  | cons x xs ih => simp [List.countP_cons, h x, ih]

theorem countP_map_false {α β : Type} (f : α → β) (p : β → Bool) (l : List α)
    (h : ∀ x, p (f x) = false) : (l.map f).countP p = 0 := by
  induction l with
  | nil => rfl
  | cons x xs ih => simp [List.countP_cons, h x, ih]

theorem pySplitAux_all_nonspace (l : List Char) :
    ∀ acc : List Char, (∀ d ∈ l, isPySpace d = false) →
      pySplitAux l acc =
        if acc.isEmpty && l.isEmpty then [] else [String.mk (acc.reverse ++ l)] := by
  induction l with
  | nil =>
    intro acc _
    simp [pySplitAux]
  | cons c cs ih =>
    intro acc h
    have hc : isPySpace c = false := h c (List.mem_cons_self _ _)
    rw [pySplitAux, if_neg (by simp [hc]),
        ih (c :: acc) (fun d hd => h d (List.mem_cons_of_mem _ hd))]
    simp

theorem pySplitChars_all_nonspace (c : Char) (cs : List Char)
    (h : ∀ d ∈ c :: cs, isPySpace d = false) :
    pySplitChars (c :: cs) = [String.mk (c :: cs)] := by
  rw [pySplitChars, pySplitAux_all_nonspace (c :: cs) [] h]
  simp

/-! ## Claims -/

/-- C1 (code bug evidence): the time window the collector sends with its
billing query is the one computed at construction time, stored in
`self.__time_range`: for a collector constructed at the epoch, the request
still carries the epoch's window, which differs from the window of an
invocation two days later. -/
theorem window_cached_from_construction :
    (buildRequest (initCollector "acme" "r" "eu-west-1" "AmortizedCost" "exclude-credits" 0)).timePeriod =
      getTimeRange 0 ∧
    getTimeRange 0 ≠ getTimeRange 172800 := by
  exact ⟨rfl, by decide⟩

/-- C2 (counterexample): a failing billing query is NOT contained by
`collect` — the error comes straight back out, so the invocation does not
yield an error-free empty sample set. -/
theorem collect_error_not_contained :
    collect acmeCollector (Except.error "EndpointConnectionError") =
      Except.error "EndpointConnectionError" := rfl

/-- C2 (amended): `collect` has no exception handler; every query failure
propagates unchanged to the caller (the metrics-server layer), and no
metric object is produced for that invocation. -/
theorem collect_propagates_query_failure (c : Collector) (e : String) :
    collect c (Except.error e) = Except.error e := rfl

/-- C3 (code bug evidence): the query requests the configured cost type
(`Metrics=[self.cost_type]`), but the aggregation loop reads the amount
under the FIXED key `"AmortizedCost"`: a well-formed response to an
`UnblendedCost` request makes the loop fail (`KeyError`), and when both
metrics are present the loop silently uses the `AmortizedCost` amount. -/
theorem aggregation_reads_fixed_metric_key :
    (buildRequest (initCollector "acme" "r" "eu-west-1" "UnblendedCost" "exclude-credits" 0)).metrics =
      ["UnblendedCost"] ∧
    getAwsCost [⟨["EC2"], [("UnblendedCost", "5.0")]⟩] = none ∧
    getAwsCost [⟨["EC2"], [("UnblendedCost", "5.0"), ("AmortizedCost", "7.0")]⟩] =
      some ⟨[("EC2", 7)], 7⟩ := by
  exact ⟨rfl, rfl, by with_unfolding_all rfl⟩

/-- C5 (counterexample): in the startup sequence of `__main__`,
`start_http_server` runs strictly before the collector's `assume_role`,
so the server is accepting scrapes before any session exists. -/
theorem server_starts_before_role_assumption :
    stepPrecedes (startupTrace true).1 .startServer .assumeRole ∧
    ¬ stepPrecedes (startupTrace true).1 .assumeRole .startServer := by
  constructor
  · exact ⟨by decide, by decide, by decide⟩
  · intro ⟨h, _⟩
    revert h
    decide

/-- C5 (amended): role assumption happens exactly once at startup — after
the HTTP server is started but before the collector is registered — and a
failed assumption aborts startup: the collector is never registered and
the serve loop is never reached, so no scrape is ever served by a
collector without a session. -/
theorem startup_role_assumption_once_before_register :
    (startupTrace true).1.count .assumeRole = 1 ∧
    stepPrecedes (startupTrace true).1 .assumeRole .registerCollector ∧
    (startupTrace false).2 = true ∧
    (startupTrace false).1.count .assumeRole = 1 ∧
    StartupStep.registerCollector ∉ (startupTrace false).1 ∧
    StartupStep.serveLoop ∉ (startupTrace false).1 := by
  refine ⟨by decide, ⟨by decide, by decide, by decide⟩, by decide, by decide, by decide, by decide⟩

/-- C10: when the query succeeds with an empty group list, `collect`
returns a metric with exactly one sample: the `daily_total` sample with
value `0.0`, labeled with the project. -/
theorem collect_empty_groups_single_total_sample (c : Collector) :
    ∃ m, collect c (Except.ok []) = Except.ok m ∧
      m.samples.length = 1 ∧
      m.samples.head? = some
        ⟨"aws_cost", 0, [("project", c.project), ("type", "daily_total")]⟩ :=
  ⟨buildMetric c ⟨[], 0⟩, rfl, rfl, rfl⟩

/-- C8: the service-name normalization is idempotent — on a name with no
whitespace it is the identity (so normalizing an already-normalized name
changes nothing) — and `"Elastic Compute Cloud"` normalizes to
`"Elastic_Compute_Cloud"`. -/
theorem normalize_fixes_nonwhitespace (s : String)
    (h : ∀ c ∈ s.data, isPySpace c = false) :
    normalizeName s = s ∧
    normalizeName "Elastic Compute Cloud" = "Elastic_Compute_Cloud" := by
  refine ⟨?_, by decide⟩
  obtain ⟨l⟩ := s
  cases l with
  | nil => rfl
  | cons c cs =>
    show joinUnderscore (pySplitChars (c :: cs)) = _
    rw [pySplitChars_all_nonspace c cs h]
    rfl

/-- C8 witness: normalization at the concrete whitespace-free name
`"EC2"`, via `normalize_fixes_nonwhitespace`. -/
theorem normalize_fixes_nonwhitespace_witness :
    normalizeName "EC2" = "EC2" ∧
    normalizeName "Elastic Compute Cloud" = "Elastic_Compute_Cloud" :=
  normalize_fixes_nonwhitespace "EC2" (by decide)

/-- C9: two groups whose distinct service identifiers normalize to the
same key leave a single cost-map entry holding the ceiling of the LAST
group's amount, while the total accumulates both amounts. -/
theorem duplicate_keys_last_wins (k1 k2 s1 s2 : String) (a1 a2 : ℚ)
    (_hk : k1 ≠ k2) (hn : normalizeName k1 = normalizeName k2)
    (h1 : parseDecimal s1 = some a1) (h2 : parseDecimal s2 = some a2) :
    getAwsCost [⟨[k1], [("AmortizedCost", s1)]⟩, ⟨[k2], [("AmortizedCost", s2)]⟩] =
      some ⟨[(normalizeName k1, ⌈a2⌉)], a1 + a2⟩ := by
  simp [getAwsCost, List.foldlM, costStep, groupAmount?, serviceOf?, h1, h2, ← hn,
        dictInsert, List.lookup]

/-- C9 witness: `"Amazon EC2"` and `"Amazon  EC2"` (double space) collide
on `"Amazon_EC2"`; the map keeps `⌈2.5⌉ = 3` and the total is `4`. -/
theorem duplicate_keys_last_wins_witness :
    getAwsCost [⟨["Amazon EC2"], [("AmortizedCost", "1.5")]⟩,
                ⟨["Amazon  EC2"], [("AmortizedCost", "2.5")]⟩] =
      some ⟨[(normalizeName "Amazon EC2", ⌈(5/2 : ℚ)⌉)], 3/2 + 5/2⟩ :=
  duplicate_keys_last_wins "Amazon EC2" "Amazon  EC2" "1.5" "2.5" (3/2) (5/2)
    (by decide) (by decide) (by with_unfolding_all rfl) (by with_unfolding_all rfl)

/-- C4: aggregation puts `⌈amount⌉` in the cost map for each group while
the total sums the unrounded parsed amounts; concretely
`[{EC2, "12.40"}, {S3, "3.10"}]` gives `costs = {EC2: 13, S3: 4}` with
`total = 15.5`, and `{Support, "-0.3"}` gives `costs[Support] = 0` with
`total = -0.3`. -/
theorem aggregate_ceils_entries_sums_total (groups : List CostGroup) (res : CostResult)
    (h : getAwsCost groups = some res) :
    (∃ as, amountsOf groups = some as ∧ res.total = as.sum) ∧
    (∀ p ∈ res.cost, ∃ g ∈ groups, ∃ a, groupAmount? g = some a ∧
      serviceOf? g = some p.1 ∧ p.2 = ⌈a⌉) ∧
    getAwsCost [⟨["EC2"], [("AmortizedCost", "12.40")]⟩,
                ⟨["S3"], [("AmortizedCost", "3.10")]⟩] =
      some ⟨[("EC2", 13), ("S3", 4)], 31/2⟩ ∧
    getAwsCost [⟨["Support"], [("AmortizedCost", "-0.3")]⟩] =
      some ⟨[("Support", 0)], -(3/10)⟩ := by
  rw [getAwsCost] at h
  obtain ⟨⟨as, has, htot⟩, hent⟩ := getAwsCost_go groups ⟨[], 0⟩ res h
  refine ⟨⟨as, has, by simpa using htot⟩, ?_,
    by with_unfolding_all rfl, by with_unfolding_all rfl⟩
  intro p hp
  rcases hent p hp with hin | h'
  · simp at hin
  · exact h'

/-- C4 witness: the total of the two-group example is the sum of the
parsed unrounded amounts, via `aggregate_ceils_entries_sums_total`. -/
theorem aggregate_ceils_entries_sums_total_witness :
    ∃ as, amountsOf [⟨["EC2"], [("AmortizedCost", "12.40")]⟩,
                     ⟨["S3"], [("AmortizedCost", "3.10")]⟩] = some as ∧
      (CostResult.mk [("EC2", 13), ("S3", 4)] (31/2)).total = as.sum :=
  (aggregate_ceils_entries_sums_total _ _ (by with_unfolding_all rfl)).1

theorem digitCh_isDigit (x : ℤ) : (digitCh x).isDigit = true := by
  have h0 : 0 ≤ Int.emod x 10 := Int.emod_nonneg x (by norm_num)
  have h1 : Int.emod x 10 < 10 := Int.emod_lt_of_pos x (by norm_num)
  have h2 : (Int.emod x 10).toNat < 10 := by omega
  unfold digitCh
  set t := (Int.emod x 10).toNat with ht
  interval_cases t <;> decide

theorem isYYYYMMDD_formatDate (z : ℤ) : isYYYYMMDD (formatDate z) = true := by
  simp [isYYYYMMDD, formatDate, digitCh_isDigit]

/-- C6: the computed time window spans exactly one day, its `End` is the
invocation instant truncated to UTC midnight, and both bounds render in
`YYYY-MM-DD` shape (instants bounded by the end of year 9999, the range
`datetime` supports). -/
theorem time_range_one_day_ending_at_midnight (now : ℕ) (h : now < 253402300800) :
    (getTimeRangeDays now).2 - (getTimeRangeDays now).1 = 1 ∧
    (getTimeRangeDays now).2 * 86400 = ((now - now % 86400 : ℕ) : ℤ) ∧
    isYYYYMMDD (getTimeRange now).1 = true ∧
    isYYYYMMDD (getTimeRange now).2 = true := by
  refine ⟨by simp [getTimeRangeDays], ?_,
    isYYYYMMDD_formatDate _, isYYYYMMDD_formatDate _⟩
  simp only [getTimeRangeDays]
  omega

/-- C6 witness: the window at 2025-10-12 00:00:00 UTC, via
`time_range_one_day_ending_at_midnight`. -/
theorem time_range_one_day_ending_at_midnight_witness :
    (getTimeRangeDays 1760227200).2 - (getTimeRangeDays 1760227200).1 = 1 ∧
    (getTimeRangeDays 1760227200).2 * 86400 = ((1760227200 - 1760227200 % 86400 : ℕ) : ℤ) ∧
    isYYYYMMDD (getTimeRange 1760227200).1 = true ∧
    isYYYYMMDD (getTimeRange 1760227200).2 = true :=
  time_range_one_day_ending_at_midnight 1760227200 (by norm_num)

theorem typeLabel_individual (pr sv : String) (v : ℚ) :
    typeLabel ⟨"aws_cost", v,
      [("project", pr), ("service", sv), ("type", "individual_service")]⟩ =
      some "individual_service" := rfl

theorem typeLabel_total (pr : String) (v : ℚ) :
    typeLabel ⟨"aws_cost", v, [("project", pr), ("type", "daily_total")]⟩ =
      some "daily_total" := rfl

/-- C7: a successful collection over a cost map with `n` services yields
one gauge metric with exactly `n + 1` samples: `n` samples typed
`individual_service` — one per cost entry, carrying the service label and
the integer cost — plus exactly one sample typed `daily_total` carrying
the unrounded total; every sample carries the project label. -/
theorem collect_emits_services_plus_total (c : Collector) (groups : List CostGroup)
    (res : CostResult) (h : getAwsCost groups = some res) :
    ∃ m, collect c (Except.ok groups) = Except.ok m ∧
      m.type = "gauge" ∧
      m.samples.length = res.cost.length + 1 ∧
      m.samples.countP (fun s => typeLabel s == some "individual_service") =
        res.cost.length ∧
      m.samples.countP (fun s => typeLabel s == some "daily_total") = 1 ∧
      (∀ s ∈ m.samples, ("project", c.project) ∈ s.labels) ∧
      (∀ p ∈ res.cost, ∃ s ∈ m.samples, s.value = (p.2 : ℚ) ∧
        ("service", p.1) ∈ s.labels ∧ typeLabel s = some "individual_service") ∧
      (∃ s ∈ m.samples, s.value = res.total ∧ typeLabel s = some "daily_total") := by
  refine ⟨buildMetric c res, by simp [collect, h], rfl, by simp [buildMetric], ?_, ?_, ?_, ?_, ?_⟩
  · simp only [buildMetric, List.countP_append]
    rw [countP_map_true _ _ _ (fun p => by rw [typeLabel_individual]; rfl)]
    simp [List.countP_cons, typeLabel_total]
  · simp only [buildMetric, List.countP_append]
    rw [countP_map_false _ _ _ (fun p => by rw [typeLabel_individual]; rfl)]
    simp [List.countP_cons, typeLabel_total]
  · intro s hs
    simp only [buildMetric, List.mem_append, List.mem_map, List.mem_singleton] at hs
    rcases hs with ⟨p, _, hp⟩ | hs
    · rw [← hp]; simp
    · rw [hs]; simp
  · intro p hp
    refine ⟨⟨"aws_cost", (p.2 : ℚ),
      [("project", c.project), ("service", p.1), ("type", "individual_service")]⟩,
      ?_, rfl, by simp, typeLabel_individual _ _ _⟩
    simp only [buildMetric, List.mem_append, List.mem_map]
    exact Or.inl ⟨p, hp, rfl⟩
  · refine ⟨⟨"aws_cost", res.total, [("project", c.project), ("type", "daily_total")]⟩,
      ?_, rfl, typeLabel_total _ _⟩
    simp [buildMetric]

/-- C7 witness: the `acme` end-to-end scenario — two mocked service
groups produce exactly three samples, all labeled `project=acme`, via
`collect_emits_services_plus_total`. -/
theorem collect_emits_services_plus_total_witness :
    ∃ m, collect acmeCollector (Except.ok demoGroups) = Except.ok m ∧
      m.samples.length = 3 ∧ ∀ s ∈ m.samples, ("project", "acme") ∈ s.labels := by
  obtain ⟨m, h1, _, h3, _, _, h6, _⟩ :=
    collect_emits_services_plus_total acmeCollector demoGroups
      ⟨[("EC2", 13), ("S3", 4)], 31/2⟩ (by with_unfolding_all rfl)
  exact ⟨m, h1, h3, h6⟩

/-- C2 witness: a concrete unreachable-service failure propagates, via
`collect_propagates_query_failure`. -/
theorem collect_propagates_query_failure_witness :
    collect (initCollector "p" "r" "us-east-1" "AmortizedCost" "exclude-credits" 0)
      (Except.error "Throttling") = Except.error "Throttling" :=
  collect_propagates_query_failure _ "Throttling"

/-- C10 witness: the empty-group collection at a concrete collector, via
`collect_empty_groups_single_total_sample`. -/
theorem collect_empty_groups_single_total_sample_witness :
    ∃ m, collect (initCollector "p" "r" "us-east-1" "AmortizedCost" "exclude-credits" 0)
        (Except.ok []) = Except.ok m ∧
      m.samples.length = 1 ∧
      m.samples.head? = some ⟨"aws_cost", 0, [("project", "p"), ("type", "daily_total")]⟩ :=
  collect_empty_groups_single_total_sample _

/-! Sanity anchors for the calendar conversion: the epoch, a leap day and
a present-day date. -/

example : civilFromDays 0 = (1970, 1, 1) := by decide

example : civilFromDays 11016 = (2000, 2, 29) := by decide

example : civilFromDays 20373 = (2025, 10, 12) := by decide

example : formatDate 20373 = "2025-10-12" := by decide

example : normalizeName "Elastic Compute Cloud" = "Elastic_Compute_Cloud" := by decide
